import Mathlib

/-!
Verification of the request-building and response-handling core of the
Amazon Nova Canvas Streamlit application (`amazon_image_streamlit_app.py`).

The Python code builds, per UI feature, a nested dictionary `inference_params`,
submits it to a remote generator, and on success stores and persists the
returned image list.  We embed the payload dictionaries as a small JSON value
type, the five per-feature request builders as pure functions, the per-click
flow (including the UI gating on required images) as `runFeature`, and the
session/response handling as explicit state passing.
-/

/-- A JSON-like value, the shape of the `inference_params` dictionaries the
application sends over the wire.  Objects are association lists in insertion
order, matching Python dict semantics for these literals. -/
inductive Json where
  | str : String → Json
  | natNum : Nat → Json
  | ratNum : Rat → Json
  | arr : List Json → Json
  | obj : List (String × Json) → Json
deriving Repr

/-- Look a key up in a JSON object (first match, as in a Python dict where
each key occurs once). Non-objects have no keys. -/
def Json.lookup : Json → String → Option Json
  | .obj fields, k => List.lookup k fields
  | _, _ => none

/-- Whether a JSON object has the given top-level key. -/
def Json.hasKey (j : Json) (k : String) : Bool :=
  (j.lookup k).isSome

/-- Look up `k2` inside the object stored at `k1`. -/
def Json.lookupIn (j : Json) (k1 k2 : String) : Option Json :=
  match j.lookup k1 with
  | some v => v.lookup k2
  | none => none

/-- The "Common Settings" sidebar inputs shared by every feature
(`quality`, `width`, `height`, `cfg_scale`, `num_images`,
`use_random_seed`, `seed` — source lines 73–80). -/
structure CommonSettings where
  quality : String
  width : Nat
  height : Nat
  cfg_scale : Rat
  num_images : Nat
  use_random_seed : Bool
  seed : Nat
deriving Repr, DecidableEq

/-- The seed placed into the payload:
`randint(0, 858993459) if use_random_seed else seed`.  The value the random
draw produced is passed in as `r`. -/
def resolveSeed (s : CommonSettings) (r : Nat) : Nat :=
  if s.use_random_seed then r else s.seed

/-- The `imageGenerationConfig` dictionary used by the TEXT_IMAGE,
COLOR_GUIDED_GENERATION and IMAGE_VARIATION branches (source lines 107–114,
175–182, 240–247, 323–330): six entries. -/
def mkImageGenerationConfig (s : CommonSettings) (r : Nat) : Json :=
  Json.obj
    [("numberOfImages", .natNum s.num_images),
     ("quality", .str s.quality),
     ("width", .natNum s.width),
     ("height", .natNum s.height),
     ("cfgScale", .ratNum s.cfg_scale),
     ("seed", .natNum (resolveSeed s r))]

/-- The `imageGenerationConfig` dictionary of the OUTPAINTING branch
(source lines 403–408): only four entries, no `width`/`height`. -/
def mkOutPaintingGenerationConfig (s : CommonSettings) (r : Nat) : Json :=
  Json.obj
    [("numberOfImages", .natNum s.num_images),
     ("quality", .str s.quality),
     ("cfgScale", .ratNum s.cfg_scale),
     ("seed", .natNum (resolveSeed s r))]

/-- `inference_params` of the "Simple Image Generation" branch
(source lines 101–115). `negativeText` is included unconditionally. -/
def inference_params_simple (text_prompt negative_prompt : String)
    (s : CommonSettings) (r : Nat) : Json :=
  Json.obj
    [("taskType", .str "TEXT_IMAGE"),
     ("textToImageParams", .obj
       [("text", .str text_prompt),
        ("negativeText", .str negative_prompt)]),
     ("imageGenerationConfig", mkImageGenerationConfig s r)]

/-- `inference_params` of the "Color-Guided Generation" branch
(source lines 169–187): always all five picker colors; `referenceImage` is
appended to `colorGuidedGenerationParams` only when an image was uploaded. -/
def inference_params_color_guided (text_prompt c1 c2 c3 c4 c5 : String)
    (reference_image_base64 : Option String)
    (s : CommonSettings) (r : Nat) : Json :=
  Json.obj
    [("taskType", .str "COLOR_GUIDED_GENERATION"),
     ("colorGuidedGenerationParams", .obj
       ([("text", .str text_prompt),
         ("colors", .arr [.str c1, .str c2, .str c3, .str c4, .str c5])] ++
        (match reference_image_base64 with
         | some ref => [("referenceImage", Json.str ref)]
         | none => []))),
     ("imageGenerationConfig", mkImageGenerationConfig s r)]

/-- `inference_params` of the "Image-Guided Generation" branch
(source lines 232–248): task type `TEXT_IMAGE` with `conditionImage`,
`controlMode` and `controlStrength` inside `textToImageParams`. -/
def inference_params_image_guided (text_prompt conditioning_image_base64 : String)
    (control_mode : String) (control_strength : Rat)
    (s : CommonSettings) (r : Nat) : Json :=
  Json.obj
    [("taskType", .str "TEXT_IMAGE"),
     ("textToImageParams", .obj
       [("text", .str text_prompt),
        ("conditionImage", .str conditioning_image_base64),
        ("controlMode", .str control_mode),
        ("controlStrength", .ratNum control_strength)]),
     ("imageGenerationConfig", mkImageGenerationConfig s r)]

/-- `inference_params` of the "Instant Customization" branch
(source lines 316–335): `negativeText` is appended to `imageVariationParams`
only when the negative prompt is a non-empty (truthy) string. -/
def inference_params_instant (images : List String) (text_prompt : String)
    (similarity_strength : Rat) (negative_prompt : String)
    (s : CommonSettings) (r : Nat) : Json :=
  Json.obj
    [("taskType", .str "IMAGE_VARIATION"),
     ("imageVariationParams", .obj
       ([("images", .arr (images.map Json.str)),
         ("text", .str text_prompt),
         ("similarityStrength", .ratNum similarity_strength)] ++
        (if negative_prompt = "" then []
         else [("negativeText", Json.str negative_prompt)]))),
     ("imageGenerationConfig", mkImageGenerationConfig s r)]

/-- `inference_params` of the "Background Replacement" operation
(source lines 395–409): OUTPAINTING with the reduced generation config. -/
def inference_params_outpainting
    (source_image_base64 text_prompt mask_prompt outpainting_mode : String)
    (s : CommonSettings) (r : Nat) : Json :=
  Json.obj
    [("taskType", .str "OUTPAINTING"),
     ("outPaintingParams", .obj
       [("image", .str source_image_base64),
        ("text", .str text_prompt),
        ("maskPrompt", .str mask_prompt),
        ("outPaintingMode", .str outpainting_mode)]),
     ("imageGenerationConfig", mkOutPaintingGenerationConfig s r)]

/-- `inference_params` of the "Background Removal" operation
(source lines 431–436): no `imageGenerationConfig` at all. -/
def inference_params_background_removal (source_image_base64 : String) : Json :=
  Json.obj
    [("taskType", .str "BACKGROUND_REMOVAL"),
     ("backgroundRemovalParams", .obj
       [("image", .str source_image_base64)])]

/-- One generation mode with its mode-specific UI inputs.  Uploaded images
are carried as their base64 encodings (`encode_image_to_base64` output);
`Option` records whether the file uploader held an image. -/
inductive Mode where
  | simple (text_prompt negative_prompt : String)
  | colorGuided (text_prompt c1 c2 c3 c4 c5 : String)
      (reference_image : Option String)
  | imageGuided (text_prompt : String) (conditioning_image : Option String)
      (control_mode : String) (control_strength : Rat)
  | instant (text_prompt negative_prompt : String)
      (ref_image1 ref_image2 ref_image3 : Option String)
      (similarity_strength : Rat)
  | backgroundReplace (source_image : Option String)
      (text_prompt mask_prompt outpainting_mode : String)
  | backgroundRemove (source_image : Option String)
deriving Repr, DecidableEq

/-- Whether the mode is the background-removal operation. -/
def Mode.isBackgroundRemove : Mode → Bool
  | .backgroundRemove _ => true
  | _ => false

/-- Whether the mode is the background-replacement (OUTPAINTING) operation. -/
def Mode.isBackgroundReplace : Mode → Bool
  | .backgroundReplace _ _ _ _ => true
  | _ => false

/-- Outcome of one "Generate" interaction for a feature: either the flow is
gated before any request is built (an informational message, or the silent
`st.button(...) and ref_image1` guard), or a payload is assembled and the
network call is made.  `validationError` is the outcome the specification
describes for a missing required field; it is part of the vocabulary so that
the specified behaviour can be stated, and the embedded code never produces
it. -/
inductive FlowOutcome where
  | info (msg : String)
  | noCall
  | validationError
  | call (payload : Json)
deriving Repr

/-- Whether the outcome performed the network call with an assembled payload. -/
def FlowOutcome.producesCall : FlowOutcome → Bool
  | .call _ => true
  | _ => false

/-- One "Generate" button press for the selected feature, as the source
branches execute it: the gating on required uploads (source lines 219/266–267,
307, 366/454–455) followed by payload assembly.  `r` is the value
`randint(0, 858993459)` returned for this press. -/
def runFeature : Mode → CommonSettings → Nat → FlowOutcome
  | .simple tp np, s, r =>
      .call (inference_params_simple tp np s r)
  | .colorGuided tp c1 c2 c3 c4 c5 ref, s, r =>
      .call (inference_params_color_guided tp c1 c2 c3 c4 c5 ref s r)
  | .imageGuided tp cond cm cs, s, r =>
      match cond with
      | some img => .call (inference_params_image_guided tp img cm cs s r)
      | none => .info "Please upload a conditioning image to continue"
  | .instant tp np r1 r2 r3 ss, s, r =>
      match r1 with
      | some _ =>
          .call (inference_params_instant (([r1, r2, r3]).filterMap id)
            tp ss np s r)
      | none => .noCall
  | .backgroundReplace src tp mp om, s, r =>
      match src with
      | some img => .call (inference_params_outpainting img tp mp om s r)
      | none => .info "Please upload a source image to continue"
  | .backgroundRemove src, _, _ =>
      match src with
      | some img => .call (inference_params_background_removal img)
      | none => .info "Please upload a source image to continue"

/-- The five task-specific params keys the application can emit. -/
def taskParamKeys : List String :=
  ["textToImageParams", "colorGuidedGenerationParams", "imageVariationParams",
   "outPaintingParams", "backgroundRemovalParams"]

/-- The params key that a given `taskType` tag declares. -/
def expectedParamsKey : String → Option String
  | "TEXT_IMAGE" => some "textToImageParams"
  | "COLOR_GUIDED_GENERATION" => some "colorGuidedGenerationParams"
  | "IMAGE_VARIATION" => some "imageVariationParams"
  | "OUTPAINTING" => some "outPaintingParams"
  | "BACKGROUND_REMOVAL" => some "backgroundRemovalParams"
  | _ => none

/-- How many of the five task-specific params keys a payload carries. -/
def taskBlockCount (p : Json) : Nat :=
  taskParamKeys.countP p.hasKey

/-- A fixed sample of the sidebar settings (the widget defaults). -/
def exampleSettings : CommonSettings :=
  { quality := "standard", width := 1024, height := 768, cfg_scale := 7,
    num_images := 1, use_random_seed := true, seed := 42 }

example :
    taskBlockCount (inference_params_simple "a" "b" exampleSettings 5) = 1 := by
  decide

example :
    Json.lookupIn (inference_params_simple "a" "" exampleSettings 5)
      "textToImageParams" "negativeText" = some (Json.str "") := rfl

/-- An Options value is missing a mode-required field: Image-Guided with no
conditioning image, Instant Customization with no reference image at all,
or a background operation with no source image.  The text-only modes have no
required upload. -/
def Mode.missingRequired : Mode → Prop
  | .simple _ _ => False
  | .colorGuided _ _ _ _ _ _ _ => False
  | .imageGuided _ cond _ _ => cond = none
  | .instant _ _ r1 r2 r3 _ => r1 = none ∧ r2 = none ∧ r3 = none
  | .backgroundReplace src _ _ _ => src = none
  | .backgroundRemove src => src = none

/-- What `display_generated_images` renders for one image: the decoded image
shown by `st.image`, and the per-image download button's label and file name
(source lines 39–53). -/
structure DisplayedImage where
  imageBytes : String
  downloadLabel : String
  downloadFileName : String
deriving Repr, DecidableEq

/-- `display_generated_images` (source lines 34–53): enumerates the stored
base64 list in order, decoding each entry and numbering buttons and file
names by 1-based position.  `decode` stands for `base64.b64decode`. -/
def display_generated_images (decode : String → String)
    (images_list : List String) : List DisplayedImage :=
  images_list.enum.map fun p =>
    { imageBytes := decode p.2,
      downloadLabel := "Download Image " ++ toString (p.1 + 1),
      downloadFileName := "generated_image_" ++ toString (p.1 + 1) ++ ".png" }

/-- Modelled from the spec: `file_utils.save_base64_images` is code of this
repository that is not under `src/` (only its call sites are).  Per the spec,
the persistence sink decodes each encoded image in response order and writes
one file per image into the given directory, the file name built from the
given base name and the 1-based sequential number (pattern base_index+1 with
index the 0-based position).  The result lists the written files in order as
(path, decoded bytes). -/
def save_base64_images (decode : String → String) (images : List String)
    (directory baseName : String) : List (String × String) :=
  images.enum.map fun p =>
    (directory ++ "/" ++ baseName ++ "_" ++ toString (p.1 + 1), decode p.2)

/-- The session-scoped mutable state: `st.session_state.output_directory` and
`st.session_state.generated_images` (source lines 18–24). -/
structure SessionState where
  output_directory : String
  generated_images : List String
deriving Repr, DecidableEq

/-- Session-state initialisation (source lines 19–24): run once per session,
with the timestamp taken at session start. -/
def initSession (timestamp : String) : SessionState :=
  { output_directory := "output/" ++ timestamp, generated_images := [] }

/-- The directory paths one request handed to its collaborators:
`BedrockImageGenerator(output_directory=...)` and, on success, the directory
passed to `file_utils.save_base64_images`. -/
structure RequestTrace where
  generatorDir : String
  saveDir : Option String
deriving Repr, DecidableEq

/-- One "Generate" press: the selected mode and its inputs, the sidebar
settings, the value the random seed draw produced, and the generator's
response — `some images` when `"images" in response`, `none` otherwise. -/
structure Request where
  mode : Mode
  settings : CommonSettings
  randomDraw : Nat
  response : Option (List String)
deriving Repr, DecidableEq

/-- Executing one request against the session state, as every branch does
(e.g. source lines 117–128): if the flow is gated no generator is created;
otherwise the generator is constructed with the session output directory and,
when the response carries images, the stored list is replaced wholesale and
the images are saved into the same directory; on a failed response the state
is untouched. -/
def runRequest (st : SessionState) (req : Request) :
    SessionState × Option RequestTrace :=
  match runFeature req.mode req.settings req.randomDraw with
  | .call _ =>
      match req.response with
      | some imgs =>
          ({ st with generated_images := imgs },
           some { generatorDir := st.output_directory,
                  saveDir := some st.output_directory })
      | none =>
          (st, some { generatorDir := st.output_directory, saveDir := none })
  | _ => (st, none)

/-- A whole session: the initial state threaded through a sequence of
requests, collecting each request's trace. -/
def runSession (st : SessionState) : List Request → SessionState × List RequestTrace
  | [] => (st, [])
  | req :: reqs =>
      let next := runRequest st req
      let rest := runSession next.1 reqs
      (rest.1, next.2.toList ++ rest.2)

/-- C9: the Image-Guided Generation payload declares taskType "TEXT_IMAGE",
the same tag as Simple Image Generation, and is distinguished only by the
conditionImage, controlMode and controlStrength entries inside
textToImageParams, which the simple payload does not carry. -/
theorem c9_image_guided_uses_text_image_tag
    (tp np img cm : String) (cs : Rat) (s : CommonSettings) (r : Nat) :
    (inference_params_image_guided tp img cm cs s r).lookup "taskType"
        = some (Json.str "TEXT_IMAGE") ∧
    (inference_params_simple tp np s r).lookup "taskType"
        = some (Json.str "TEXT_IMAGE") ∧
    Json.lookupIn (inference_params_image_guided tp img cm cs s r)
        "textToImageParams" "conditionImage" = some (Json.str img) ∧
    Json.lookupIn (inference_params_image_guided tp img cm cs s r)
        "textToImageParams" "controlMode" = some (Json.str cm) ∧
    Json.lookupIn (inference_params_image_guided tp img cm cs s r)
        "textToImageParams" "controlStrength" = some (Json.ratNum cs) ∧
    Json.lookupIn (inference_params_simple tp np s r)
        "textToImageParams" "conditionImage" = none ∧
    Json.lookupIn (inference_params_simple tp np s r)
        "textToImageParams" "controlMode" = none ∧
    Json.lookupIn (inference_params_simple tp np s r)
        "textToImageParams" "controlStrength" = none :=
  ⟨rfl, rfl, rfl, rfl, rfl, rfl, rfl, rfl⟩

/-- C10: every Color-Guided payload sends all five picker colors: the colors
array is exactly the five supplied values, of length 5, whether or not a
reference image was uploaded. -/
theorem c10_color_guided_always_five_colors
    (tp c1 c2 c3 c4 c5 : String) (ref : Option String)
    (s : CommonSettings) (r : Nat) :
    Json.lookupIn (inference_params_color_guided tp c1 c2 c3 c4 c5 ref s r)
        "colorGuidedGenerationParams" "colors"
      = some (Json.arr [.str c1, .str c2, .str c3, .str c4, .str c5]) ∧
    ([Json.str c1, .str c2, .str c3, .str c4, .str c5] : List Json).length = 5 := by
  cases ref <;> exact ⟨rfl, rfl⟩

/-- C3 counterexample: in Simple Image Generation with an empty negative
prompt, the payload still contains a negativeText entry holding the empty
string — an empty placeholder for an omitted optional field. -/
theorem c3_counterexample_empty_negative_included :
    Json.lookupIn (inference_params_simple
        "A beautiful landscape with mountains and a lake at sunset" ""
        exampleSettings 7) "textToImageParams" "negativeText"
      = some (Json.str "") := rfl

/-- C3 amended: the reference image in Color-Guided Generation and the
negative prompt in Instant Customization are included only when supplied
(non-empty); but Simple Image Generation always includes negativeText, even
when the negative prompt is empty. -/
theorem c3_amended_optional_field_inclusion
    (tp np c1 c2 c3 c4 c5 : String) (ref : Option String)
    (imgs : List String) (ss : Rat) (s : CommonSettings) (r : Nat) :
    Json.lookupIn (inference_params_color_guided tp c1 c2 c3 c4 c5 ref s r)
        "colorGuidedGenerationParams" "referenceImage" = ref.map Json.str ∧
    Json.lookupIn (inference_params_instant imgs tp ss np s r)
        "imageVariationParams" "negativeText"
      = (if np = "" then none else some (Json.str np)) ∧
    Json.lookupIn (inference_params_simple tp np s r)
        "textToImageParams" "negativeText" = some (Json.str np) := by
  refine ⟨?_, ?_, rfl⟩
  · cases ref <;> rfl
  · by_cases h : np = ""
    · subst h; rfl
    · simp only [inference_params_instant, if_neg h]
      rfl

/-- C2 counterexample: with a missing conditioning image, the Image-Guided
flow shows an informational message and stops; it does not fail with a
ValidationError (no such error exists anywhere in the code). -/
theorem c2_counterexample_info_not_validation_error :
    runFeature (Mode.imageGuided
        "3d animated film style, a person in a colorful outfit"
        none "SEGMENTATION" (3/10)) exampleSettings 7
      = FlowOutcome.info "Please upload a conditioning image to continue" ∧
    FlowOutcome.info "Please upload a conditioning image to continue"
      ≠ FlowOutcome.validationError :=
  ⟨rfl, fun h => FlowOutcome.noConfusion h⟩

/-- C2 amended: for every Options value missing a mode-required image, no
payload is assembled and no network call is performed — the UI gates the
Generate action (an info message or a disabled flow) instead of raising a
ValidationError; assembly never proceeds with a malformed payload. -/
theorem c2_amended_missing_required_never_calls
    (mode : Mode) (s : CommonSettings) (r : Nat)
    (h : mode.missingRequired) :
    (runFeature mode s r).producesCall = false ∧
    runFeature mode s r ≠ FlowOutcome.validationError := by
  cases mode with
  | simple tp np => exact h.elim
  | colorGuided tp c1 c2 c3 c4 c5 ref => exact h.elim
  | imageGuided tp cond cm cs =>
      have hc : cond = none := h
      subst hc
      exact ⟨rfl, fun hx => FlowOutcome.noConfusion hx⟩
  | instant tp np r1 r2 r3 ss =>
      have hc : r1 = none := h.1
      subst hc
      exact ⟨rfl, fun hx => FlowOutcome.noConfusion hx⟩
  | backgroundReplace src tp mp om =>
      have hc : src = none := h
      subst hc
      exact ⟨rfl, fun hx => FlowOutcome.noConfusion hx⟩
  | backgroundRemove src =>
      have hc : src = none := h
      subst hc
      exact ⟨rfl, fun hx => FlowOutcome.noConfusion hx⟩

/-- Witness for the amended C2 at a concrete gated input. -/
theorem c2_amended_witness :
    (runFeature (Mode.backgroundRemove none) exampleSettings 0).producesCall
        = false ∧
    runFeature (Mode.backgroundRemove none) exampleSettings 0
        ≠ FlowOutcome.validationError :=
  c2_amended_missing_required_never_calls (Mode.backgroundRemove none)
    exampleSettings 0 rfl

/-- C1: whenever a payload is assembled, it contains exactly one of the five
task-specific params blocks, its key is the one the declared taskType tag
names, and an imageGenerationConfig block is present iff the mode is not
Background Removal. -/
theorem c1_unique_task_block_and_config
    (mode : Mode) (s : CommonSettings) (r : Nat) (p : Json)
    (hp : runFeature mode s r = FlowOutcome.call p) :
    (∃ t k, p.lookup "taskType" = some (Json.str t) ∧
      expectedParamsKey t = some k ∧ p.hasKey k = true) ∧
    taskBlockCount p = 1 ∧
    p.hasKey "imageGenerationConfig" = !mode.isBackgroundRemove := by
  cases mode with
  | simple tp np =>
      have hp' : FlowOutcome.call (inference_params_simple tp np s r)
          = FlowOutcome.call p := hp
      injection hp' with h; subst h
      exact ⟨⟨"TEXT_IMAGE", "textToImageParams", rfl, rfl, rfl⟩, rfl, rfl⟩
  | colorGuided tp c1 c2 c3 c4 c5 ref =>
      have hp' : FlowOutcome.call
          (inference_params_color_guided tp c1 c2 c3 c4 c5 ref s r)
          = FlowOutcome.call p := hp
      injection hp' with h; subst h
      exact ⟨⟨"COLOR_GUIDED_GENERATION", "colorGuidedGenerationParams",
        rfl, rfl, rfl⟩, rfl, rfl⟩
  | imageGuided tp cond cm cs =>
      cases cond with
      | none => exact absurd hp (by simp [runFeature])
      | some img =>
          have hp' : FlowOutcome.call
              (inference_params_image_guided tp img cm cs s r)
              = FlowOutcome.call p := hp
          injection hp' with h; subst h
          exact ⟨⟨"TEXT_IMAGE", "textToImageParams", rfl, rfl, rfl⟩, rfl, rfl⟩
  | instant tp np r1 r2 r3 ss =>
      cases r1 with
      | none => exact absurd hp (by simp [runFeature])
      | some i1 =>
          have hp' : FlowOutcome.call
              (inference_params_instant
                (([some i1, r2, r3]).filterMap id) tp ss np s r)
              = FlowOutcome.call p := hp
          injection hp' with h; subst h
          exact ⟨⟨"IMAGE_VARIATION", "imageVariationParams", rfl, rfl, rfl⟩,
            rfl, rfl⟩
  | backgroundReplace src tp mp om =>
      cases src with
      | none => exact absurd hp (by simp [runFeature])
      | some img =>
          have hp' : FlowOutcome.call
              (inference_params_outpainting img tp mp om s r)
              = FlowOutcome.call p := hp
          injection hp' with h; subst h
          exact ⟨⟨"OUTPAINTING", "outPaintingParams", rfl, rfl, rfl⟩, rfl, rfl⟩
  | backgroundRemove src =>
      cases src with
      | none => exact absurd hp (by simp [runFeature])
      | some img =>
          have hp' : FlowOutcome.call
              (inference_params_background_removal img)
              = FlowOutcome.call p := hp
          injection hp' with h; subst h
          exact ⟨⟨"BACKGROUND_REMOVAL", "backgroundRemovalParams",
            rfl, rfl, rfl⟩, rfl, rfl⟩

/-- Witness for C1 at a concrete Simple Image Generation input. -/
theorem c1_witness :
    (∃ t k, (inference_params_simple "a" "b" exampleSettings 7).lookup
        "taskType" = some (Json.str t) ∧
      expectedParamsKey t = some k ∧
      (inference_params_simple "a" "b" exampleSettings 7).hasKey k = true) ∧
    taskBlockCount (inference_params_simple "a" "b" exampleSettings 7) = 1 ∧
    (inference_params_simple "a" "b" exampleSettings 7).hasKey
        "imageGenerationConfig" = !(Mode.simple "a" "b").isBackgroundRemove :=
  c1_unique_task_block_and_config (Mode.simple "a" "b") exampleSettings 7
    (inference_params_simple "a" "b" exampleSettings 7) rfl

/-- Every assembled payload carrying an imageGenerationConfig carries either
the six-entry config or, in the Background Replacement (OUTPAINTING) mode,
the four-entry config. -/
theorem generationConfig_of_call
    (mode : Mode) (s : CommonSettings) (r : Nat) (p c : Json)
    (hp : runFeature mode s r = FlowOutcome.call p)
    (hc : p.lookup "imageGenerationConfig" = some c) :
    c = cond mode.isBackgroundReplace (mkOutPaintingGenerationConfig s r)
          (mkImageGenerationConfig s r) := by
  cases mode with
  | simple tp np =>
      have hp' : FlowOutcome.call (inference_params_simple tp np s r)
          = FlowOutcome.call p := hp
      injection hp' with h; subst h
      have hc' : some (mkImageGenerationConfig s r) = some c := hc
      injection hc' with h2
      exact h2.symm
  | colorGuided tp c1 c2 c3 c4 c5 ref =>
      have hp' : FlowOutcome.call
          (inference_params_color_guided tp c1 c2 c3 c4 c5 ref s r)
          = FlowOutcome.call p := hp
      injection hp' with h; subst h
      have hc' : some (mkImageGenerationConfig s r) = some c := hc
      injection hc' with h2
      exact h2.symm
  | imageGuided tp cond cm cs =>
      cases cond with
      | none => exact absurd hp (by simp [runFeature])
      | some img =>
          have hp' : FlowOutcome.call
              (inference_params_image_guided tp img cm cs s r)
              = FlowOutcome.call p := hp
          injection hp' with h; subst h
          have hc' : some (mkImageGenerationConfig s r) = some c := hc
          injection hc' with h2
          exact h2.symm
  | instant tp np r1 r2 r3 ss =>
      cases r1 with
      | none => exact absurd hp (by simp [runFeature])
      | some i1 =>
          have hp' : FlowOutcome.call
              (inference_params_instant
                (([some i1, r2, r3]).filterMap id) tp ss np s r)
              = FlowOutcome.call p := hp
          injection hp' with h; subst h
          have hc' : some (mkImageGenerationConfig s r) = some c := hc
          injection hc' with h2
          exact h2.symm
  | backgroundReplace src tp mp om =>
      cases src with
      | none => exact absurd hp (by simp [runFeature])
      | some img =>
          have hp' : FlowOutcome.call
              (inference_params_outpainting img tp mp om s r)
              = FlowOutcome.call p := hp
          injection hp' with h; subst h
          have hc' : some (mkOutPaintingGenerationConfig s r) = some c := hc
          injection hc' with h2
          exact h2.symm
  | backgroundRemove src =>
      cases src with
      | none => exact absurd hp (by simp [runFeature])
      | some img =>
          have hp' : FlowOutcome.call
              (inference_params_background_removal img)
              = FlowOutcome.call p := hp
          injection hp' with h; subst h
          have hc' : (none : Option Json) = some c := hc
          exact Option.noConfusion hc'

/-- C4 counterexample: the OUTPAINTING (Background Replacement) payload has
an imageGenerationConfig block, but that block carries neither width nor
height, so it does not contain all six shared parameters. -/
theorem c4_counterexample_outpainting_config_omits_size :
    (inference_params_outpainting "img"
        "a sparse stylish kitchen, highly detailed, highest quality"
        "person" "PRECISE" exampleSettings 7).hasKey
        "imageGenerationConfig" = true ∧
    Json.lookupIn (inference_params_outpainting "img"
        "a sparse stylish kitchen, highly detailed, highest quality"
        "person" "PRECISE" exampleSettings 7)
        "imageGenerationConfig" "width" = none ∧
    Json.lookupIn (inference_params_outpainting "img"
        "a sparse stylish kitchen, highly detailed, highest quality"
        "person" "PRECISE" exampleSettings 7)
        "imageGenerationConfig" "height" = none :=
  ⟨rfl, rfl, rfl⟩

/-- C4 amended: every assembled generation-config block contains
numberOfImages, quality, cfgScale and seed; width and height are present in
every config-bearing mode except Background Replacement (OUTPAINTING), whose
config omits them. -/
theorem c4_amended_generation_config_fields
    (mode : Mode) (s : CommonSettings) (r : Nat) (p c : Json)
    (hp : runFeature mode s r = FlowOutcome.call p)
    (hc : p.lookup "imageGenerationConfig" = some c) :
    c.hasKey "numberOfImages" = true ∧ c.hasKey "quality" = true ∧
    c.hasKey "cfgScale" = true ∧ c.hasKey "seed" = true ∧
    c.hasKey "width" = !mode.isBackgroundReplace ∧
    c.hasKey "height" = !mode.isBackgroundReplace := by
  have hcfg := generationConfig_of_call mode s r p c hp hc
  cases hbr : mode.isBackgroundReplace <;> rw [hbr] at hcfg <;> subst hcfg <;>
    exact ⟨rfl, rfl, rfl, rfl, rfl, rfl⟩

/-- Witness for the amended C4 at a concrete Simple Image Generation input. -/
theorem c4_amended_witness :
    (mkImageGenerationConfig exampleSettings 7).hasKey "numberOfImages"
        = true ∧
    (mkImageGenerationConfig exampleSettings 7).hasKey "quality" = true ∧
    (mkImageGenerationConfig exampleSettings 7).hasKey "cfgScale" = true ∧
    (mkImageGenerationConfig exampleSettings 7).hasKey "seed" = true ∧
    (mkImageGenerationConfig exampleSettings 7).hasKey "width"
        = !(Mode.simple "a" "b").isBackgroundReplace ∧
    (mkImageGenerationConfig exampleSettings 7).hasKey "height"
        = !(Mode.simple "a" "b").isBackgroundReplace :=
  c4_amended_generation_config_fields (Mode.simple "a" "b") exampleSettings 7
    (inference_params_simple "a" "b" exampleSettings 7)
    (mkImageGenerationConfig exampleSettings 7) rfl rfl

/-- C5: every assembled generation-config block carries a concrete seed
entry: the drawn value `r` when a random seed was requested, and exactly the
caller's fixed seed otherwise; either way the value stays in
[0, 858993459], given that the random draw and the seed widget both stay in
that range. -/
theorem c5_seed_resolution
    (mode : Mode) (s : CommonSettings) (r : Nat) (p c : Json)
    (hp : runFeature mode s r = FlowOutcome.call p)
    (hc : p.lookup "imageGenerationConfig" = some c)
    (hr : r ≤ 858993459) (hs : s.seed ≤ 858993459) :
    c.lookup "seed" = some (Json.natNum (resolveSeed s r)) ∧
    resolveSeed s r ≤ 858993459 ∧
    (s.use_random_seed = true → resolveSeed s r = r) ∧
    (s.use_random_seed = false → resolveSeed s r = s.seed) := by
  have hcfg := generationConfig_of_call mode s r p c hp hc
  refine ⟨?_, ?_, ?_, ?_⟩
  · cases hbr : mode.isBackgroundReplace <;> rw [hbr] at hcfg <;>
      subst hcfg <;> rfl
  · unfold resolveSeed
    cases hrs : s.use_random_seed <;> simp [hr, hs]
  · intro h; simp [resolveSeed, h]
  · intro h; simp [resolveSeed, h]

/-- Witness for C5 at a concrete Simple Image Generation input. -/
theorem c5_witness :
    (mkImageGenerationConfig exampleSettings 7).lookup "seed"
        = some (Json.natNum (resolveSeed exampleSettings 7)) ∧
    resolveSeed exampleSettings 7 ≤ 858993459 ∧
    (exampleSettings.use_random_seed = true →
      resolveSeed exampleSettings 7 = 7) ∧
    (exampleSettings.use_random_seed = false →
      resolveSeed exampleSettings 7 = exampleSettings.seed) :=
  c5_seed_resolution (Mode.simple "a" "b") exampleSettings 7
    (inference_params_simple "a" "b" exampleSettings 7)
    (mkImageGenerationConfig exampleSettings 7) rfl rfl
    (by decide) (by decide)

/-- C6: the persisted and displayed sequences preserve the service response
order and have the same length as the response; the i-th entry (0-based) is
the decoded i-th response image, saved under base_index+1 with the 1-based
number i+1 and displayed with a download button labelled and named by the
same 1-based number. -/
theorem c6_order_preserved_and_numbered
    (decode : String → String) (images : List String) (dir base : String)
    (i : Nat) (img : String) (h : images[i]? = some img) :
    (save_base64_images decode images dir base)[i]?
        = some (dir ++ "/" ++ base ++ "_" ++ toString (i + 1), decode img) ∧
    (display_generated_images decode images)[i]?
        = some { imageBytes := decode img,
                 downloadLabel := "Download Image " ++ toString (i + 1),
                 downloadFileName :=
                   "generated_image_" ++ toString (i + 1) ++ ".png" } ∧
    (save_base64_images decode images dir base).length = images.length ∧
    (display_generated_images decode images).length = images.length := by
  refine ⟨?_, ?_, ?_, ?_⟩ <;>
    simp [save_base64_images, display_generated_images, List.getElem?_map,
      List.getElem?_enum, List.enum_length, h]

/-- Witness for C6 on a concrete two-image response, at the second image. -/
theorem c6_witness :
    (save_base64_images id ["a", "b"] "output/t" "image")[1]?
        = some ("output/t" ++ "/" ++ "image" ++ "_" ++ toString (1 + 1),
            id "b") ∧
    (display_generated_images id ["a", "b"])[1]?
        = some { imageBytes := id "b",
                 downloadLabel := "Download Image " ++ toString (1 + 1),
                 downloadFileName :=
                   "generated_image_" ++ toString (1 + 1) ++ ".png" } ∧
    (save_base64_images id ["a", "b"] "output/t" "image").length
        = (["a", "b"] : List String).length ∧
    (display_generated_images id ["a", "b"]).length
        = (["a", "b"] : List String).length :=
  c6_order_preserved_and_numbered id ["a", "b"] "output/t" "image" 1 "b" rfl

/-- One request leaves the session output directory unchanged, and whatever
directories it hands to the generator and the persistence sink are exactly
the session output directory. -/
theorem runRequest_dirs (st : SessionState) (req : Request) :
    (runRequest st req).1.output_directory = st.output_directory ∧
    ∀ tr ∈ (runRequest st req).2, tr.generatorDir = st.output_directory ∧
      (tr.saveDir = none ∨ tr.saveDir = some st.output_directory) := by
  cases hf : runFeature req.mode req.settings req.randomDraw <;>
    cases hr : req.response <;>
      simp [runRequest, hf, hr]

/-- Across a whole session, the output directory never changes and every
trace's generator and sink directories equal the starting directory. -/
theorem runSession_dirs (st : SessionState) (reqs : List Request) :
    (runSession st reqs).1.output_directory = st.output_directory ∧
    ∀ tr ∈ (runSession st reqs).2, tr.generatorDir = st.output_directory ∧
      (tr.saveDir = none ∨ tr.saveDir = some st.output_directory) := by
  induction reqs generalizing st with
  | nil => simp [runSession]
  | cons req reqs ih =>
      have h := runRequest_dirs st req
      have ihh := ih (runRequest st req).1
      refine ⟨?_, ?_⟩
      · show (runSession (runRequest st req).1 reqs).1.output_directory
            = st.output_directory
        rw [ihh.1, h.1]
      · intro tr htr
        have hm : tr ∈ (runRequest st req).2.toList ++
            (runSession (runRequest st req).1 reqs).2 := htr
        rcases List.mem_append.mp hm with hmem | hmem
        · exact h.2 tr (Option.mem_toList.mp hmem)
        · have hx := ihh.2 tr hmem
          rw [h.1] at hx
          exact hx

/-- C7: in a session initialised at a given timestamp, the output directory
is output/timestamp, every request's generator receives exactly that path,
any successful save writes into exactly that path, and the stored directory
is still the same after the whole session. -/
theorem c7_one_directory_per_session
    (timestamp : String) (reqs : List Request) (tr : RequestTrace)
    (htr : tr ∈ (runSession (initSession timestamp) reqs).2) :
    tr.generatorDir = "output/" ++ timestamp ∧
    (tr.saveDir = none ∨ tr.saveDir = some ("output/" ++ timestamp)) ∧
    (runSession (initSession timestamp) reqs).1.output_directory
        = "output/" ++ timestamp := by
  have h := runSession_dirs (initSession timestamp) reqs
  have h2 := h.2 tr htr
  exact ⟨h2.1, h2.2, h.1⟩

/-- A sample request: Simple Image Generation succeeding with one image. -/
def exampleRequest : Request :=
  { mode := Mode.simple "a" "b", settings := exampleSettings,
    randomDraw := 7, response := some ["img1"] }

/-- Witness for C7 on a one-request session. -/
theorem c7_witness :
    (RequestTrace.mk "output/ts" (some "output/ts")).generatorDir
        = "output/" ++ "ts" ∧
    ((RequestTrace.mk "output/ts" (some "output/ts")).saveDir = none ∨
      (RequestTrace.mk "output/ts" (some "output/ts")).saveDir
        = some ("output/" ++ "ts")) ∧
    (runSession (initSession "ts") [exampleRequest]).1.output_directory
        = "output/" ++ "ts" :=
  c7_one_directory_per_session "ts" [exampleRequest]
    (RequestTrace.mk "output/ts" (some "output/ts")) (by decide)

/-- C8: a failed response (no images key) leaves the stored image list
unchanged, so the most recent successful images stay displayed; and a
successful response on a non-gated request replaces the stored list
wholesale with the returned images. -/
theorem c8_failure_keeps_previous_images (st : SessionState) (req : Request) :
    (req.response = none →
      (runRequest st req).1.generated_images = st.generated_images) ∧
    (∀ imgs, req.response = some imgs →
      (runFeature req.mode req.settings req.randomDraw).producesCall = true →
      (runRequest st req).1.generated_images = imgs) := by
  cases hf : runFeature req.mode req.settings req.randomDraw <;>
    cases hr : req.response <;>
      simp [runRequest, hf, hr, FlowOutcome.producesCall]

/-- Witness for C8: a successful request replaces the stored list. -/
theorem c8_witness :
    (runRequest (initSession "ts") exampleRequest).1.generated_images
        = ["img1"] :=
  (c8_failure_keeps_previous_images (initSession "ts") exampleRequest).2
    ["img1"] rfl rfl
